import Mathlib

/-!
Verification of the selection-capture / request-cancellation / streaming-replacement
engine of `Windows_and_Linux/WritingToolApp.py`.

The Python methods are embedded as pure Lean functions over `List Char`
(Python `str` values).  Mutable state (`self.output_queue`, the system
clipboard) is passed explicitly; the observable effect of one call to
`replace_text` is an `Action` value.  Fallible clipboard / keyboard
primitives are modelled with explicit failure flags, one per primitive
call, reproducing the `try`/`except` structure of the source.
-/

set_option autoImplicit false

namespace WritingTools

/-- The whitespace test used by Python's `str.strip` / `str.split`
(ASCII fragment; all strings involved here are ASCII). -/
def pyWs (c : Char) : Bool :=
  c = ' ' || c = '\t' || c = '\n' || c = '\r' || c = '\x0b' || c = '\x0c'

/-- Left part of Python `str.strip`: drop leading whitespace. -/
def ltrim (l : List Char) : List Char := l.dropWhile pyWs

/-- Right part of Python `str.strip`: drop trailing whitespace. -/
def rtrim (l : List Char) : List Char := (l.reverse.dropWhile pyWs).reverse

/-- Python `s.strip()`. -/
def pyStrip (l : List Char) : List Char := rtrim (ltrim l)

/-- Python `''.join(s.split())`: remove every whitespace character. -/
def collapse (l : List Char) : List Char := l.filter (fun c => !pyWs c)

/-- Python `s.rstrip('\n')`: drop trailing newline characters. -/
def rstripNl (l : List Char) : List Char := (l.reverse.dropWhile (fun c => c = '\n')).reverse

/-- `error_message` of `replace_text` (line 348), the backend's error sentinel. -/
def error_message : List Char := "ERROR_TEXT_INCOMPATIBLE_WITH_REQUEST".data

/-- `l₁` is an initial segment of `l₂`. -/
def prefixOf (l₁ l₂ : List Char) : Prop := ∃ t, l₁ ++ t = l₂

/-- A Python value handed to `replace_text` through `output_ready_signal`:
either a string or some non-string value (`other`).  Python's guard
`new_text and isinstance(new_text, str)` passes exactly for non-empty strings. -/
inductive PyVal where
  | str : List Char → PyVal
  | other : PyVal
deriving DecidableEq

/-- Observable effect of one `replace_text` call:
`none` (no paste, no message box — the guard failed or the chunk is held),
`notify` (the incompatible-text message box is emitted, nothing pasted), or
`paste t` (`t` is copied to the clipboard and pasted into the document). -/
inductive Action where
  | none
  | notify
  | paste : List Char → Action
deriving DecidableEq

/-- Embedding of `WritingToolApp.replace_text` (lines 344-401), success path of
the clipboard block.  State is `output_queue`; the result is the new queue and
the `Action` performed.  Correspondence with the source's local names:
`current_output = pyStrip (output_queue ++ s)`,
`clean_current = collapse current_output`,
`clean_error = collapse error_message`.
On the paste branch the pasted text is `output_queue.rstrip('\n')` and the
queue is reset to `""` (line 397). -/
def replace_text (output_queue : List Char) (new_text : PyVal) : List Char × Action :=
  match new_text with
  | PyVal.other => (output_queue, Action.none)
  | PyVal.str s =>
    if s = [] then (output_queue, Action.none)
    else if pyStrip (output_queue ++ s) = error_message then
      (output_queue ++ s, Action.notify)
    else if (pyStrip (output_queue ++ s)).length ≤ error_message.length then
      if collapse (pyStrip (output_queue ++ s))
          = (collapse error_message).take (collapse (pyStrip (output_queue ++ s))).length then
        (output_queue ++ s, Action.none)
      else ([], Action.paste (rstripNl (output_queue ++ s)))
    else ([], Action.paste (rstripNl (output_queue ++ s)))

/-- Feed a list of chunks to `replace_text` in order, starting from queue `q`;
returns the final queue and the list of actions performed. -/
def processFrom (q : List Char) (chunks : List (List Char)) : List Char × List Action :=
  match chunks with
  | [] => (q, [])
  | c :: rest =>
    let r := replace_text q (PyVal.str c)
    let rr := processFrom r.1 rest
    (rr.1, r.2 :: rr.2)

/-- Feed a list of chunks to `replace_text` starting from the empty queue
(the state right after a trigger or a new request). -/
def processChunks (chunks : List (List Char)) : List Char × List Action :=
  processFrom [] chunks

def isPaste : Action → Bool
  | Action.paste _ => true
  | _ => false

def isNotify : Action → Bool
  | Action.notify => true
  | _ => false

def countPaste (as : List Action) : Nat := (as.filter isPaste).length

def countNotify (as : List Action) : Nat := (as.filter isNotify).length

/-- The world seen by the clipboard primitives: the system clipboard and the
(fixed) selection of the foreground application. -/
structure ClipWorld where
  clip : List Char
  selection : List Char
deriving DecidableEq

/-- Embedding of `WritingToolApp.get_selected_text` (lines 216-250) together
with `clear_clipboard` (lines 252-260).  Each fallible primitive call gets a
flag (`true` = the call raises): `fPasteBackup` the initial `pyperclip.paste()`,
`fCopyClear` the `pyperclip.copy('')` inside `clear_clipboard` (whose exception
is caught and swallowed there), `fKeys` the simulated Ctrl+C, `fPasteRead` the
`pyperclip.paste()` that reads the selection, `fCopyRestore` the final
`pyperclip.copy(clipboard_backup)`.  `get_selected_text` itself has no
`try`/`except`, so any raising primitive other than the clear aborts the
method; the result is then `none` and the clipboard is left as it was at that
point.  A successful Ctrl+C copies the selection to the clipboard when the
selection is non-empty, and leaves the clipboard unchanged when it is empty. -/
def get_selected_text (w : ClipWorld)
    (fPasteBackup fCopyClear fKeys fPasteRead fCopyRestore : Bool) :
    ClipWorld × Option (List Char) :=
  if fPasteBackup then (w, Option.none)
  else
    let clipboard_backup := w.clip
    let w1 : ClipWorld := if fCopyClear then w else { w with clip := [] }
    if fKeys then (w1, Option.none)
    else
      let w2 : ClipWorld := if w1.selection = [] then w1 else { w1 with clip := w1.selection }
      if fPasteRead then (w2, Option.none)
      else
        let selected_text := w2.clip
        if fCopyRestore then (w2, Option.none)
        else ({ w2 with clip := clipboard_backup }, Option.some selected_text)

/-- Embedding of the clipboard block of `replace_text` (lines 370-399): the
`try` body backs up the clipboard, copies `output_queue.rstrip('\n')`,
simulates Ctrl+V, restores the backup and resets the queue; the `except`
catches any failure and only logs it, so every failure path returns normally
with the clipboard and queue as they were at the point of failure.
Flags as in `get_selected_text`; returns the final world and the final
`output_queue`. -/
def replace_text_paste (w : ClipWorld) (output_queue : List Char)
    (fPasteBackup fCopySet fKeys fCopyRestore : Bool) : ClipWorld × List Char :=
  if fPasteBackup then (w, output_queue)
  else
    let clipboard_backup := w.clip
    let cleaned_text := rstripNl output_queue
    if fCopySet then (w, output_queue)
    else
      let w1 : ClipWorld := { w with clip := cleaned_text }
      if fKeys then (w1, output_queue)
      else
        if fCopyRestore then (w1, output_queue)
        else ({ w1 with clip := clipboard_backup }, [])

/-- State of the trigger/stream system: the shared `output_queue` and a counter
naming the currently active request generation. -/
structure SysState where
  queue : List Char
  active : Nat
deriving DecidableEq

/-- An event of the trigger/stream system: a hotkey trigger, or the delivery of
a streamed chunk produced by request generation `handle`. -/
inductive SysEv where
  | trigger
  | chunk (handle : Nat) (text : List Char)

/-- One step of the trigger/stream system.  `trigger` is `on_hotkey_pressed`
(lines 150-161) with a provider present: it cancels the provider's request and
resets `output_queue` to `""`, making the next generation active.  A `chunk`
event is the delivery of a streamed string through `output_ready_signal` into
`replace_text`.  Modelled from the spec: the provider (`aiprovider.py`, not
part of the sources here) delivers its output through `output_ready_signal`
regardless of cancellation — cancellation is fire-and-forget — and the signal
carries only the text, so `replace_text` receives no handle identity and the
step function cannot depend on `handle`. -/
def sysStep (st : SysState) (e : SysEv) : SysState × Action :=
  match e with
  | SysEv.trigger => (⟨[], st.active + 1⟩, Action.none)
  | SysEv.chunk _ s =>
    let r := replace_text st.queue (PyVal.str s)
    (⟨r.1, st.active⟩, r.2)

/-- Run the trigger/stream system over a list of events, collecting the
actions performed. -/
def sysRun (st : SysState) (es : List SysEv) : SysState × List Action :=
  match es with
  | [] => (st, [])
  | e :: rest =>
    let r := sysStep st e
    let rr := sysRun r.1 rest
    (rr.1, r.2 :: rr.2)

/-- Externally visible operations of the trigger path, in program order. -/
inductive AppEvent where
  | cancelRequest
  | resetOutputQueue
  | captureSelection
  | showPopupWindow
  | startBackendRequest
deriving DecidableEq

/-- Trace of one trigger: `on_hotkey_pressed` (lines 150-161) cancels the
current provider's request and resets `output_queue` when a provider exists,
then queues `_show_popup` (lines 163-214), which calls `get_selected_text`
before building the popup window. -/
def trigger_trace (hasProvider : Bool) : List AppEvent :=
  (if hasProvider then [AppEvent.cancelRequest, AppEvent.resetOutputQueue] else [])
    ++ [AppEvent.captureSelection, AppEvent.showPopupWindow]

/-- Trace of the successful path of `process_option_thread` (lines 269-335):
the queue is reset (line 329) immediately before `get_response` is called
(line 331). -/
def process_option_trace : List AppEvent :=
  [AppEvent.resetOutputQueue, AppEvent.startBackendRequest]

/-- Result of `process_option_thread`: either a message box is emitted and the
method returns without touching the backend, or `output_queue` is reset and
`get_response system_instruction prompt` is invoked.  `prompt` is `Option`
because on the empty-selection `Custom` path the raw `custom_change` (possibly
Python `None`) is passed through. -/
inductive ProcResult where
  | error (title message : List Char)
  | request (system_instruction : List Char) (prompt : Option (List Char))
deriving DecidableEq

/-- Python f-string rendering of a possibly-`None` value. -/
def pyShowOpt : Option (List Char) → List Char
  | Option.some s => s
  | Option.none => "None".data

/-- The `option_prompts` dictionary of `process_option_thread` (lines 275-312):
for each option name, the prompt prefix and the system instruction. -/
def option_prompts (option : List Char) : Option (List Char × List Char) :=
  if option = "Relecture".data then
    Option.some ("Relis et corrige ceci :\n\n".data,
      "Tu es un relecteur précis. Corrige les erreurs, fond comme forme, grammaticales, orthographiques et typographiques également. Renvoie uniquement le texte corrigé, en préservant le style et la structure d\x27origine. En cas de texte incompréhensible, renvoie \x27ERROR_TEXT_INCOMPATIBLE_WITH_REQUEST\x27. Pas de commentaires additionnels.".data)
  else if option = "Réécriture".data then
    Option.some ("Réécris ceci :\n\n".data,
      "Tu es un assistant de rédaction. Améliore la formulation du texte fourni. Renvoie uniquement le texte réécrit, sans commentaires. En cas de texte incompréhensible, renvoie \x27ERROR_TEXT_INCOMPATIBLE_WITH_REQUEST\x27.".data)
  else if option = "Amical".data then
    Option.some ("Rends ceci plus amical :\n\n".data,
      "Tu es un assistant de rédaction. Réécris le texte pour le rendre plus chaleureux et accessible. Renvoie uniquement le texte modifié, sans commentaires. En cas de texte incompréhensible, renvoie \x27ERROR_TEXT_INCOMPATIBLE_WITH_REQUEST\x27.".data)
  else if option = "Professionnel".data then
    Option.some ("Rends ceci plus professionnel :\n\n".data,
      "Tu es un assistant de rédaction. Réécris le texte dans un style plus formel et professionnel. Renvoie uniquement le texte modifié, sans commentaires. En cas de texte incompréhensible, renvoie \x27ERROR_TEXT_INCOMPATIBLE_WITH_REQUEST\x27.".data)
  else if option = "Concis".data then
    Option.some ("Rends ceci plus concis :\n\n".data,
      "Tu es un assistant de rédaction. Réécris le texte de façon plus concise sans perdre l\x27information essentielle. Renvoie uniquement la version condensée, sans commentaires. En cas de texte incompréhensible, renvoie \x27ERROR_TEXT_INCOMPATIBLE_WITH_REQUEST\x27.".data)
  else if option = "Résumé".data then
    Option.some ("Résume ceci :\n\n".data,
      "Tu es un assistant de synthèse. Fournis un résumé clair et concis du texte. Renvoie uniquement le résumé, sans commentaires. En cas de texte incompréhensible, renvoie \x27ERROR_TEXT_INCOMPATIBLE_WITH_REQUEST\x27.".data)
  else if option = "Points-Clés".data then
    Option.some ("Extrais les points clés de ceci :\n\n".data,
      "Tu es un assistant d\x27analyse. Identifie et liste uniquement les points essentiels du texte, sans commentaires. En cas de texte incompréhensible, renvoie \x27ERROR_TEXT_INCOMPATIBLE_WITH_REQUEST\x27.".data)
  else if option = "Tableau".data then
    Option.some ("Convertis ceci en tableau :\n\n".data,
      "Tu es un assistant de conversion. Transforme le texte en tableau structuré. Renvoie uniquement le tableau formaté, sans commentaires. En cas de texte incompatible, renvoie \x27ERROR_TEXT_INCOMPATIBLE_WITH_REQUEST\x27.".data)
  else if option = "Personnalisé".data then
    Option.some ("Applique le changement suivant à ce texte :\n\n".data,
      "Tu es un assistant de rédaction polyvalent. Applique précisément la modification demandée au texte fourni. Renvoie uniquement le contenu modifié, sans commentaires. En cas de texte incompatible, renvoie \x27ERROR_TEXT_INCOMPATIBLE_WITH_REQUEST\x27.".data)
  else Option.none

/-- Embedding of `WritingToolApp.process_option_thread` (lines 269-335).
When the stripped selection is empty and the option is not `Custom`, the
method emits the empty-selection message box and returns without calling the
backend; otherwise it builds the prompt, resets `output_queue` and calls
`get_response` (encoded by `ProcResult.request`). -/
def process_option_thread (option : List Char) (selected_text : List Char)
    (custom_change : Option (List Char)) : ProcResult :=
  if pyStrip selected_text = [] then
    if option = "Custom".data then
      ProcResult.request "You are a helpful assistant to the user. The user cannot follow-up with you after your single response to them, so do not ask them questions.".data custom_change
    else
      ProcResult.error "Error".data "Please select text to use this option.".data
  else
    let pr := (option_prompts option).getD ([], [])
    if option = "Custom".data then
      ProcResult.request pr.2
        (Option.some (pr.1 ++ "Described change: ".data ++ pyShowOpt custom_change
          ++ "\n\nText: ".data ++ selected_text))
    else
      ProcResult.request pr.2 (Option.some (pr.1 ++ selected_text))

/-- A first chunk long enough that the forward decision is taken on it. -/
def c4First : List Char := "Here is a rewritten paragraph of sufficient length!".data

/-- A late chunk long enough to be forwarded on arrival. -/
def lateChunk : List Char := "The quick brown fox jumps over the lazy dog".data

/-- Chunk sequence reconstructing the sentinel followed by a whitespace chunk. -/
def c1Chunks : List (List Char) := [error_message, [' ']]

/-- Chunk sequence: the exact sentinel, then one more character. -/
def c2Chunks : List (List Char) := [error_message, ['!']]

end WritingTools


namespace WritingTools

lemma mem_of_prefixOf {l₁ l₂ : List Char} (h : prefixOf l₁ l₂) {c : Char} (hc : c ∈ l₁) :
    c ∈ l₂ := by
  obtain ⟨t, rfl⟩ := h
  exact List.mem_append_left t hc

lemma length_le_of_prefixOf {l₁ l₂ : List Char} (h : prefixOf l₁ l₂) :
    l₁.length ≤ l₂.length := by
  obtain ⟨t, rfl⟩ := h
  simp [List.length_append]

lemma prefixOf_iff_take {l₁ l₂ : List Char} : prefixOf l₁ l₂ ↔ l₁ = l₂.take l₁.length := by
  constructor
  · rintro ⟨t, rfl⟩
    exact (List.take_left l₁ t).symm
  · intro h
    refine ⟨l₂.drop l₁.length, ?_⟩
    nth_rewrite 1 [h]
    exact List.take_append_drop _ _

lemma prefixOf_append {t a b : List Char} (h : prefixOf t (a ++ b)) :
    prefixOf t a ∨ ∃ t₂, t = a ++ t₂ ∧ prefixOf t₂ b := by
  induction a generalizing t with
  | nil => exact Or.inr ⟨t, by simp, by simpa using h⟩
  | cons x xs ih =>
    cases t with
    | nil => exact Or.inl ⟨x :: xs, rfl⟩
    | cons y ys =>
      obtain ⟨r, hr⟩ := h
      rw [List.cons_append, List.cons_append] at hr
      injection hr with h1 h2
      subst h1
      rcases ih ⟨r, h2⟩ with h' | ⟨t₂, rfl, h₂⟩
      · obtain ⟨u, hu⟩ := h'
        exact Or.inl ⟨u, by rw [List.cons_append, hu]⟩
      · exact Or.inr ⟨t₂, by rw [List.cons_append], h₂⟩

lemma dropWhile_append_all {p : Char → Bool} {a b : List Char}
    (h : ∀ c ∈ a, p c = true) : (a ++ b).dropWhile p = b.dropWhile p := by
  induction a with
  | nil => rfl
  | cons x xs ih =>
    have hx : p x = true := h x (List.mem_cons_self x xs)
    simp only [List.cons_append, List.dropWhile_cons, hx, if_true]
    exact ih fun c hc => h c (List.mem_cons_of_mem x hc)

lemma dropWhile_all {p : Char → Bool} {l : List Char} (h : ∀ c ∈ l, p c = true) :
    l.dropWhile p = [] := by
  induction l with
  | nil => rfl
  | cons x xs ih =>
    have hx : p x = true := h x (List.mem_cons_self x xs)
    simp only [List.dropWhile_cons, hx, if_true]
    exact ih fun c hc => h c (List.mem_cons_of_mem x hc)

lemma dropWhile_none {p : Char → Bool} {l : List Char} (h : ∀ c ∈ l, p c = false) :
    l.dropWhile p = l := by
  cases l with
  | nil => rfl
  | cons x xs =>
    have hx : p x = false := h x (List.mem_cons_self x xs)
    simp [List.dropWhile_cons, hx]

lemma collapse_of_noWs {l : List Char} (h : ∀ c ∈ l, pyWs c = false) : collapse l = l :=
  List.filter_eq_self.mpr fun a ha => by simp [h a ha]

lemma noWs_error_message : ∀ c ∈ error_message, pyWs c = false := by decide

lemma collapse_error_message : collapse error_message = error_message := by decide

lemma strip_of_allWs {l : List Char} (h : ∀ c ∈ l, pyWs c = true) : pyStrip l = [] := by
  show rtrim (ltrim l) = []
  rw [show ltrim l = [] from dropWhile_all h]
  rfl

lemma rtrim_append_ws {s w : List Char} (hw : ∀ c ∈ w, pyWs c = true)
    (hs : ∀ c ∈ s, pyWs c = false) : rtrim (s ++ w) = s := by
  unfold rtrim
  rw [List.reverse_append]
  rw [dropWhile_append_all fun c hc => hw c (List.mem_reverse.mp hc)]
  rw [dropWhile_none fun c hc => hs c (List.mem_reverse.mp hc)]
  exact List.reverse_reverse s

lemma strip_sandwich {w₀ s w₁ : List Char}
    (h₀ : ∀ c ∈ w₀, pyWs c = true) (h₁ : ∀ c ∈ w₁, pyWs c = true)
    (hs : ∀ c ∈ s, pyWs c = false) :
    pyStrip (w₀ ++ (s ++ w₁)) = s := by
  show rtrim (ltrim (w₀ ++ (s ++ w₁))) = s
  rw [show ltrim (w₀ ++ (s ++ w₁)) = (s ++ w₁).dropWhile pyWs from dropWhile_append_all h₀]
  cases s with
  | nil =>
    rw [List.nil_append, dropWhile_all h₁]
    rfl
  | cons x s' =>
    have hx : pyWs x = false := hs x (List.mem_cons_self x s')
    have e2 : ((x :: s') ++ w₁).dropWhile pyWs = (x :: s') ++ w₁ := by
      rw [List.cons_append, List.dropWhile_cons, hx]
      simp
    rw [e2]
    exact rtrim_append_ws h₁ hs

lemma rtrim_decomp (m : List Char) :
    m = rtrim m ++ (m.reverse.takeWhile pyWs).reverse := by
  conv_lhs => rw [← List.reverse_reverse m, ← List.takeWhile_append_dropWhile pyWs m.reverse]
  rw [List.reverse_append]
  rfl

lemma strip_decomp (l : List Char) :
    ∃ w₀ w₁, l = w₀ ++ (pyStrip l ++ w₁)
      ∧ (∀ c ∈ w₀, pyWs c = true) ∧ (∀ c ∈ w₁, pyWs c = true) := by
  refine ⟨l.takeWhile pyWs, ((ltrim l).reverse.takeWhile pyWs).reverse, ?_, ?_, ?_⟩
  · conv_lhs => rw [← List.takeWhile_append_dropWhile pyWs l]
    congr 1
    exact rtrim_decomp (l.dropWhile pyWs)
  · exact fun c hc => List.mem_takeWhile_imp hc
  · exact fun c hc => List.mem_takeWhile_imp (List.mem_reverse.mp hc)

lemma strip_prefixOf_of_strip_eq {full t : List Char}
    (hfull : pyStrip full = error_message) (ht : prefixOf t full) :
    prefixOf (pyStrip t) error_message := by
  obtain ⟨w₀, w₁, hdec, h₀, h₁⟩ := strip_decomp full
  rw [hfull] at hdec
  rw [hdec] at ht
  rcases prefixOf_append ht with h | ⟨t₂, rfl, h₂⟩
  · have hall : ∀ c ∈ t, pyWs c = true := fun c hc => h₀ c (mem_of_prefixOf h hc)
    rw [strip_of_allWs hall]
    exact ⟨error_message, List.nil_append _⟩
  · rcases prefixOf_append h₂ with h₃ | ⟨t₃, rfl, h₄⟩
    · have hno : ∀ c ∈ t₂, pyWs c = false :=
        fun c hc => noWs_error_message c (mem_of_prefixOf h₃ hc)
      have e : pyStrip (w₀ ++ (t₂ ++ [])) = t₂ :=
        strip_sandwich h₀ (fun c hc => nomatch hc) hno
      rw [List.append_nil] at e
      rw [e]
      exact h₃
    · have hall₃ : ∀ c ∈ t₃, pyWs c = true := fun c hc => h₁ c (mem_of_prefixOf h₄ hc)
      rw [strip_sandwich h₀ hall₃ noWs_error_message]
      exact ⟨[], List.append_nil _⟩

lemma replace_text_str {q s : List Char} (hs : s ≠ []) :
    replace_text q (PyVal.str s)
      = if pyStrip (q ++ s) = error_message then (q ++ s, Action.notify)
        else if (pyStrip (q ++ s)).length ≤ error_message.length then
          if collapse (pyStrip (q ++ s))
              = (collapse error_message).take (collapse (pyStrip (q ++ s))).length then
            (q ++ s, Action.none)
          else ([], Action.paste (rstripNl (q ++ s)))
        else ([], Action.paste (rstripNl (q ++ s))) := by
  simp [replace_text, hs]

lemma replace_text_of_strip_prefixOf {q c : List Char} (hc : c ≠ [])
    (hpre : prefixOf (pyStrip (q ++ c)) error_message) :
    replace_text q (PyVal.str c)
      = (q ++ c, if pyStrip (q ++ c) = error_message then Action.notify else Action.none) := by
  by_cases he : pyStrip (q ++ c) = error_message
  · rw [replace_text_str hc, if_pos he, if_pos he]
  · have hno : ∀ x ∈ pyStrip (q ++ c), pyWs x = false :=
      fun x hx => noWs_error_message x (mem_of_prefixOf hpre hx)
    have hlen : (pyStrip (q ++ c)).length ≤ error_message.length := length_le_of_prefixOf hpre
    have hcond : collapse (pyStrip (q ++ c))
        = (collapse error_message).take (collapse (pyStrip (q ++ c))).length := by
      rw [collapse_of_noWs hno, collapse_error_message]
      exact prefixOf_iff_take.mp hpre
    rw [replace_text_str hc, if_neg he, if_pos hlen, if_pos hcond, if_neg he]

lemma replace_text_hold {q c : List Char} (hc : c ≠ [])
    (hne : pyStrip (q ++ c) ≠ error_message)
    (hlen : (pyStrip (q ++ c)).length ≤ error_message.length)
    (hpre : prefixOf (collapse (pyStrip (q ++ c))) error_message) :
    replace_text q (PyVal.str c) = (q ++ c, Action.none) := by
  have hcond : collapse (pyStrip (q ++ c))
      = (collapse error_message).take (collapse (pyStrip (q ++ c))).length := by
    rw [collapse_error_message]
    exact prefixOf_iff_take.mp hpre
  rw [replace_text_str hc, if_neg hne, if_pos hlen, if_pos hcond]

lemma countPaste_cons_not (a : Action) (as : List Action) (h : isPaste a = false) :
    countPaste (a :: as) = countPaste as := by
  unfold countPaste
  rw [List.filter_cons, h]
  simp

lemma countNotify_cons (a : Action) (as : List Action) :
    countNotify (a :: as) = (if isNotify a then 1 else 0) + countNotify as := by
  unfold countNotify
  rw [List.filter_cons]
  by_cases h : isNotify a = true <;> simp [h, Nat.add_comm]

lemma processFrom_no_paste {full : List Char} (hfull : pyStrip full = error_message) :
    ∀ (suf : List (List Char)) (q : List Char), q ++ suf.flatten = full →
      countPaste (processFrom q suf).2 = 0 := by
  intro suf
  induction suf with
  | nil => intro q _; rfl
  | cons c rest ih =>
    intro q hjoin
    rw [List.flatten_cons] at hjoin
    by_cases hc : c = []
    · subst hc
      rw [List.nil_append] at hjoin
      have hstep : replace_text q (PyVal.str []) = (q, Action.none) := by simp [replace_text]
      simp only [processFrom, hstep]
      rw [countPaste_cons_not Action.none _ rfl]
      exact ih q hjoin
    · have hq' : (q ++ c) ++ rest.flatten = full := by rw [List.append_assoc]; exact hjoin
      have hpre : prefixOf (pyStrip (q ++ c)) error_message :=
        strip_prefixOf_of_strip_eq hfull ⟨rest.flatten, hq'⟩
      have hstep := replace_text_of_strip_prefixOf hc hpre
      simp only [processFrom, hstep]
      rw [countPaste_cons_not _ _ (by split <;> rfl)]
      exact ih (q ++ c) hq'

lemma processFrom_notify {full : List Char} (hfull : pyStrip full = error_message) :
    ∀ (suf : List (List Char)) (q : List Char), q ++ suf.flatten = full →
      pyStrip q ≠ error_message → 1 ≤ countNotify (processFrom q suf).2 := by
  intro suf
  induction suf with
  | nil =>
    intro q hjoin hne
    exfalso
    apply hne
    rw [List.flatten_nil, List.append_nil] at hjoin
    rw [hjoin]
    exact hfull
  | cons c rest ih =>
    intro q hjoin hne
    rw [List.flatten_cons] at hjoin
    by_cases hc : c = []
    · subst hc
      rw [List.nil_append] at hjoin
      have hstep : replace_text q (PyVal.str []) = (q, Action.none) := by simp [replace_text]
      simp only [processFrom, hstep]
      rw [countNotify_cons, show (if isNotify Action.none then 1 else 0) = 0 from rfl,
        Nat.zero_add]
      exact ih q hjoin hne
    · have hq' : (q ++ c) ++ rest.flatten = full := by rw [List.append_assoc]; exact hjoin
      have hpre : prefixOf (pyStrip (q ++ c)) error_message :=
        strip_prefixOf_of_strip_eq hfull ⟨rest.flatten, hq'⟩
      have hstep := replace_text_of_strip_prefixOf hc hpre
      simp only [processFrom, hstep]
      by_cases he : pyStrip (q ++ c) = error_message
      · rw [if_pos he, countNotify_cons,
          show (if isNotify Action.notify then 1 else 0) = 1 from rfl]
        exact Nat.le_add_right 1 _
      · rw [if_neg he, countNotify_cons,
          show (if isNotify Action.none then 1 else 0) = 0 from rfl, Nat.zero_add]
        exact ih (q ++ c) hq' he

end WritingTools

namespace WritingTools

/-- C1 (counterexample): the chunk sequence `[sentinel, " "]` reconstructs the
sentinel up to surrounding whitespace, pastes nothing, but emits TWO error
notifications (one when the sentinel is complete and one when the trailing
whitespace chunk arrives), not exactly one. -/
theorem C1_counterexample :
    pyStrip c1Chunks.flatten = error_message
    ∧ countNotify (processChunks c1Chunks).2 ≠ 1
    ∧ countPaste (processChunks c1Chunks).2 = 0 := by
  decide

/-- C1 (amended): for every chunk sequence whose concatenation strips to the
error sentinel, feeding the chunks in order to `replace_text` pastes zero text
and emits at least one error notification (one per chunk whose arrival leaves
the stripped accumulation equal to the sentinel). -/
theorem C1_sentinel_stream_suppressed (chunks : List (List Char))
    (h : pyStrip chunks.flatten = error_message) :
    countPaste (processChunks chunks).2 = 0
    ∧ 1 ≤ countNotify (processChunks chunks).2 := by
  constructor
  · exact processFrom_no_paste h chunks [] (List.nil_append _)
  · exact processFrom_notify h chunks [] (List.nil_append _) (by decide)

/-- C1 (witness): the sentinel split across two chunks is fully suppressed and
reported. -/
theorem C1_witness :
    countPaste (processChunks [("ERROR_TEXT_".data), ("INCOMPATIBLE_WITH_REQUEST".data)]).2 = 0
    ∧ 1 ≤ countNotify (processChunks [("ERROR_TEXT_".data), ("INCOMPATIBLE_WITH_REQUEST".data)]).2 :=
  C1_sentinel_stream_suppressed _ (by decide)

/-- C2 (code bug, evaluated at the failing input): once the accumulated output
has matched the sentinel exactly (the error was reported), the queue is not
cleared and no suppressed flag exists, so one further chunk `"!"` makes the
accumulation longer than the sentinel and the WHOLE queue — the sentinel
included — is pasted into the document. -/
theorem C2_chunk_after_sentinel_pastes :
    (processChunks c2Chunks).2 = [Action.notify, Action.paste (error_message ++ ['!'])] := by
  decide

/-- C3 (counterexample): after two triggers (the second cancels generation 1
and makes generation 2 active with an empty queue), a late chunk from
generation 1 is still appended and pasted into the document — it is not
dropped. -/
theorem C3_counterexample :
    (sysRun ⟨[], 0⟩ [SysEv.trigger, SysEv.trigger, SysEv.chunk 1 lateChunk]).2
      = [Action.none, Action.none, Action.paste lateChunk] := by
  decide

/-- C3 (amended): `replace_text` receives no handle identity — the signal
carries only the text — so a chunk delivered after its handle was cancelled by
a new trigger is processed exactly like a chunk of the active handle: appended
to the shared accumulated output and forwarded, held, or reported by the
normal sentinel rules.  Only the queue reset performed by the trigger
mitigates cross-generation mixing. -/
theorem C3_no_handle_identity_check (st : SysState) (g g' : Nat) (s : List Char) :
    sysStep st (SysEv.chunk g s) = sysStep st (SysEv.chunk g' s)
    ∧ (sysStep st (SysEv.chunk g s)).1.queue = (replace_text st.queue (PyVal.str s)).1
    ∧ (sysStep st (SysEv.chunk g s)).2 = (replace_text st.queue (PyVal.str s)).2 :=
  ⟨rfl, rfl, rfl⟩

/-- C4 (counterexample): a first chunk long enough to force the forward
decision is pasted, but the next chunk `"E"` is HELD (action `none`), not
forwarded immediately — the sentinel-prefix check is consulted again. -/
theorem C4_counterexample :
    (processChunks [c4First, ['E']]).2 = [Action.paste c4First, Action.none] := by
  decide

/-- C4 (amended): a forward decision resets the accumulated queue to empty,
and every subsequent chunk is evaluated from scratch by the sentinel checks:
a subsequent chunk whose own stripped content collapses to a prefix of the
sentinel (without being the sentinel) is held, not forwarded — forwarding is
not a permanent state of the handle. -/
theorem C4_forward_resets_and_rechecks (q c q' t : List Char)
    (h : replace_text q (PyVal.str c) = (q', Action.paste t)) :
    q' = []
    ∧ ∀ c2 : List Char, c2 ≠ [] → pyStrip c2 ≠ error_message →
        (pyStrip c2).length ≤ error_message.length →
        prefixOf (collapse (pyStrip c2)) error_message →
        (replace_text q' (PyVal.str c2)).2 = Action.none := by
  have hq' : q' = [] := by
    by_cases hc : c = []
    · simp [replace_text, hc] at h
    · rw [replace_text_str hc] at h
      split_ifs at h <;> simp_all
  subst hq'
  refine ⟨rfl, ?_⟩
  intro c2 hc2 hne hlen hpre
  have e := replace_text_hold hc2 (q := []) (by simpa using hne) (by simpa using hlen)
    (by simpa using hpre)
  rw [e]

/-- C4 (witness): after the forward decision on `c4First`, the queue is empty
and the chunk `"E"` is held. -/
theorem C4_witness :
    (replace_text [] (PyVal.str ['E'])).2 = Action.none :=
  (C4_forward_resets_and_rechecks [] c4First [] c4First (by decide)).2 ['E']
    (by decide) (by decide) (by decide)
    ⟨("RROR_TEXT_INCOMPATIBLE_WITH_REQUEST".data), by decide⟩

/-- C5 (confirmed): a chunk whose arrival leaves the stripped accumulated
output no longer than the sentinel, different from the sentinel, and
whitespace-collapsing to a prefix of the sentinel, is held: `replace_text`
pastes nothing, emits no notification, and the queue retains the appended
chunk. -/
theorem C5_prefix_chunks_are_held (q c : List Char) (hc : c ≠ [])
    (hne : pyStrip (q ++ c) ≠ error_message)
    (hlen : (pyStrip (q ++ c)).length ≤ error_message.length)
    (hpre : prefixOf (collapse (pyStrip (q ++ c))) error_message) :
    replace_text q (PyVal.str c) = (q ++ c, Action.none) :=
  replace_text_hold hc hne hlen hpre

/-- C5 (witness): the chunk `"  ERROR_TEX"` is held. -/
theorem C5_witness :
    replace_text [] (PyVal.str ("  ERROR_TEX".data)) = ([] ++ "  ERROR_TEX".data, Action.none) :=
  C5_prefix_chunks_are_held [] ("  ERROR_TEX".data) (by decide) (by decide) (by decide)
    ⟨("T_INCOMPATIBLE_WITH_REQUEST".data), by decide⟩

/-- C6 (confirmed): whenever the forward decision is taken, the pasted text is
exactly the un-stripped accumulated output (previous queue plus the new chunk,
leading and internal whitespace preserved) with only trailing newline
characters removed. -/
theorem C6_forwarded_text_is_rstrip_of_queue (q c q' t : List Char)
    (h : replace_text q (PyVal.str c) = (q', Action.paste t)) :
    t = rstripNl (q ++ c) := by
  by_cases hc : c = []
  · simp [replace_text, hc] at h
  · rw [replace_text_str hc] at h
    split_ifs at h <;> simp_all

/-- C6 (witness): a forwarded chunk with trailing newlines is pasted with only
those newlines removed. -/
theorem C6_witness :
    ("A suitably long reply from the backend model!".data : List Char)
      = rstripNl ([] ++ "A suitably long reply from the backend model!\n\n".data) :=
  C6_forwarded_text_is_rstrip_of_queue [] ("A suitably long reply from the backend model!\n\n".data)
    [] ("A suitably long reply from the backend model!".data) (by decide)

/-- C7 (counterexample): if the clipboard read after the simulated Ctrl+C
raises (`fPasteRead = true`), `get_selected_text` aborts without restoring and
the final clipboard holds the selection, not the prior content `"A"`. -/
theorem C7_counterexample :
    (get_selected_text ⟨['A'], ['B']⟩ false false false true false).1.clip ≠ ['A'] := by
  decide

/-- C7 (amended): on the success paths (allowing the swallowed failure of the
clear inside `clear_clipboard`), both the capture operation and the paste
branch of `replace_text` leave the clipboard equal to its content immediately
before the operation began; when a later primitive fails after the backup, the
clipboard is left unrestored. -/
theorem C7_success_paths_restore_clipboard (w : ClipWorld) (fc : Bool) (q : List Char) :
    (get_selected_text w false fc false false false).1.clip = w.clip
    ∧ (replace_text_paste w q false false false false).1.clip = w.clip := by
  exact ⟨rfl, rfl⟩

/-- C8 (confirmed): with an empty (or whitespace-only) selection and an option
other than `Custom`, `process_option_thread` emits the empty-selection message
box and returns without invoking the backend's `get_response`. -/
theorem C8_empty_selection_no_backend (option selected_text : List Char)
    (custom_change : Option (List Char))
    (hsel : pyStrip selected_text = [])
    (hopt : option ≠ "Custom".data) :
    process_option_thread option selected_text custom_change
      = ProcResult.error ("Error".data) ("Please select text to use this option.".data) := by
  simp [process_option_thread, hsel, hopt]

/-- C8 (witness): a whitespace-only selection with option `Relecture` yields
the error and no request. -/
theorem C8_witness :
    process_option_thread ("Relecture".data) ("   ".data) Option.none
      = ProcResult.error ("Error".data) ("Please select text to use this option.".data) :=
  C8_empty_selection_no_backend _ _ _ (by decide) (by decide)

/-- C9 (confirmed): on a trigger with a provider present, the provider's
request is cancelled and the accumulated output reset before the selection is
captured, the selection is captured anew inside every trigger's trace, and any
backend request starts only after the capture. -/
theorem C9_cancel_and_reset_precede_capture :
    (∀ b : Bool, AppEvent.captureSelection ∈ trigger_trace b)
    ∧ (trigger_trace true ++ process_option_trace).indexOf AppEvent.cancelRequest
        < (trigger_trace true ++ process_option_trace).indexOf AppEvent.resetOutputQueue
    ∧ (trigger_trace true ++ process_option_trace).indexOf AppEvent.resetOutputQueue
        < (trigger_trace true ++ process_option_trace).indexOf AppEvent.captureSelection
    ∧ (trigger_trace true ++ process_option_trace).indexOf AppEvent.captureSelection
        < (trigger_trace true ++ process_option_trace).indexOf AppEvent.startBackendRequest := by
  decide

/-- C10 (confirmed): an empty-string or non-string argument makes
`replace_text` a complete no-op: the queue is unchanged and the action is
`none` (no clipboard mutation, no paste, no notification). -/
theorem C10_empty_or_nonstring_is_noop (q : List Char) :
    replace_text q (PyVal.str []) = (q, Action.none)
    ∧ replace_text q PyVal.other = (q, Action.none) :=
  ⟨by simp [replace_text], rfl⟩

end WritingTools
